import Mathlib

/-!
Verification of the core of `send`, a desktop HTTP request composer
(`src/main.rs`): the folder-tree addressor, the environment-variable
resolver, the wire-request builder of `send_request`, the response
shaping of `SendApp::update`, and the busy-flag gating of the send
action.  Strings are modelled as `List Char` (Rust `String`);
`str::trim().is_empty()` is modelled by `is_blank` (a string trims to
empty iff all of its characters are whitespace); byte buffers are
modelled as `List Nat`.
-/

namespace Send

/-- Models `key.trim().is_empty()` / `value.trim().is_empty()`: trimming
whitespace from both ends leaves the empty string iff every character is
whitespace. -/
def is_blank (s : List Char) : Bool :=
  s.all (fun c => c.isWhitespace)

/-- One scanning pass of Rust `str::replace(pat, rep)` over a character
list: scan left to right, replace each non-overlapping occurrence of
`pat` by `rep`.  `skip > 0` means the scanner is inside an already
matched occurrence and must consume `skip` characters without matching.
(Rust's behaviour for an empty pattern, inserting `rep` at every char
boundary, is not reproduced: the `!pat.isEmpty` guard makes the empty
pattern a no-op.  Every pattern used by the resolver is `\x7b\x7bname\x7d\x7d`,
which has at least four characters, so the two agree on all inputs that
occur.) -/
def replace_go (pat rep : List Char) : Nat → List Char → List Char
  | _, [] => []
  | n + 1, _ :: cs => replace_go pat rep n cs
  | 0, c :: cs =>
    if pat.isPrefixOf (c :: cs) && !pat.isEmpty then
      rep ++ replace_go pat rep (pat.length - 1) cs
    else
      c :: replace_go pat rep 0 cs

/-- Rust `s.replace(pat, rep)` on character lists. -/
def list_replace (pat rep s : List Char) : List Char :=
  replace_go pat rep 0 s

/-- The placeholder `format!("\x7b\x7b\x7b\x7b\x7b\x7d\x7d\x7d\x7d\x7d", key)`
of `resolve_value` (main.rs:493): the literal text `\x7b\x7bkey\x7d\x7d`. -/
def placeholder (key : List Char) : List Char :=
  '\x7b' :: '\x7b' :: (key ++ ['\x7d', '\x7d'])

/-- An environment's `variables` field (main.rs:79): an ordered list of
(name, value) pairs. -/
abbrev Env : Type := List (List Char × List Char)

/-- `SendApp::resolve_value` (main.rs:486-499).  The `Option Env`
argument is the active environment: `some vars` when
`selected_environment` is `Some(idx)` with `idx` in range (the variables
of that environment), `none` when no environment is selected or the
index is out of range — in which case the loop body never runs and the
input is returned unchanged.  With an active environment, one
whole-string `replace` pass per variable, in the environment's
iteration order. -/
def resolve_value (env : Option Env) (input : List Char) : List Char :=
  match env with
  | none => input
  | some vars =>
    vars.foldl (fun result kv => list_replace (placeholder kv.1) kv.2 result) input

/-- Whether `pat` occurs as a contiguous substring of `s` (the
occurrences that `str::replace` would rewrite). -/
def has_occurrence (pat : List Char) : List Char → Bool
  | [] => pat.isEmpty
  | c :: cs => pat.isPrefixOf (c :: cs) || has_occurrence pat cs

theorem replace_go_no_occurrence (pat rep : List Char) (s : List Char)
    (h : has_occurrence pat s = false) : replace_go pat rep 0 s = s := by
  induction s with
  | nil => rfl
  | cons c cs ih =>
    simp only [has_occurrence, Bool.or_eq_false_iff] at h
    simp [replace_go, h.1, ih h.2]

theorem list_replace_no_occurrence (pat rep s : List Char)
    (h : has_occurrence pat s = false) : list_replace pat rep s = s :=
  replace_go_no_occurrence pat rep s h

theorem resolve_value_no_occurrence (vars : Env) (input : List Char)
    (h : ∀ kv ∈ vars, has_occurrence (placeholder kv.1) input = false) :
    resolve_value (some vars) input = input := by
  induction vars with
  | nil => rfl
  | cons kv rest ih =>
    have h1 : list_replace (placeholder kv.1) kv.2 input = input :=
      list_replace_no_occurrence _ _ _ (h kv (List.mem_cons_self kv rest))
    show List.foldl _ (list_replace (placeholder kv.1) kv.2 input) rest = input
    rw [h1]
    exact ih (fun kv' hkv' => h kv' (List.mem_cons_of_mem kv hkv'))

/-! ## Data model (main.rs:14-98) -/

/-- `enum BodyType` (main.rs:28-35). -/
inductive BodyType where
  | None
  | Raw
  | Json
  | FormData
  | UrlEncoded
deriving DecidableEq

/-- `enum FormDataEntry` (main.rs:37-48). -/
inductive FormDataEntry where
  | Text (key : List Char) (value : List Char)
  | File (key : List Char) (file_path : List Char) (file_name : List Char)
deriving DecidableEq

/-- `struct HttpRequest` (main.rs:14-26). -/
structure HttpRequest where
  id : List Char
  name : List Char
  method : List Char
  url : List Char
  headers : List (List Char × List Char)
  body : List Char
  body_type : BodyType
  form_data : List FormDataEntry
  url_encoded_data : List (List Char × List Char)
  query_params : List (List Char × List Char)
deriving DecidableEq

/-- `struct HttpResponse` (main.rs:50-59).  The Rust `headers` field is a
`HashMap<String, String>`; it is modelled as an association list (the
claims verified here only inspect it for emptiness). -/
structure HttpResponse where
  status : Nat
  status_text : List Char
  headers : List (List Char × List Char)
  body : List Char
  time : Nat
  body_size : Nat
  headers_size : Nat
deriving DecidableEq

/-- `struct Folder` (main.rs:61-67): recursive, exclusively owned tree. -/
inductive Folder where
  | mk (id : List Char) (name : List Char)
       (requests : List HttpRequest) (folders : List Folder)

/-- The `folders` field of a `Folder`. -/
def Folder.folders : Folder → List Folder
  | .mk _ _ _ fs => fs

/-- The `requests` field of a `Folder`. -/
def Folder.requests : Folder → List HttpRequest
  | .mk _ _ rs _ => rs

/-- `struct Collection` (main.rs:69-74). -/
structure Collection where
  id : List Char
  name : List Char
  root_folder : Folder

/-! ## Folder-Tree Addressor (main.rs:417-447) -/

/-- The traversal loop of `SendApp::get_folder_by_path` (main.rs:433-447):
start at the collection's root folder; for each index of the path, if it
is in bounds of the current folder's `folders` descend into it,
otherwise return `None`. -/
def folder_walk (current : Folder) : List Nat → Option Folder
  | [] => some current
  | folder_idx :: rest =>
    if h : folder_idx < current.folders.length then
      folder_walk (current.folders.get ⟨folder_idx, h⟩) rest
    else
      none

/-- `SendApp::get_folder_by_path` (main.rs:433-447), the read-only
variant. -/
def get_folder_by_path (collection : Collection) (folder_path : List Nat) :
    Option Folder :=
  folder_walk collection.root_folder folder_path

/-- The traversal loop of `SendApp::get_folder_by_path_mut`
(main.rs:417-431).  The Rust function returns `Option<&mut Folder>`; in
this pure embedding the traversal threads the collection state through
and returns it alongside the found folder, so that "performs no
mutation" is the provable statement that the returned state equals the
input state. -/
def folder_walk_mut (current : Folder) : List Nat → Option Folder
  | [] => some current
  | folder_idx :: rest =>
    if h : folder_idx < current.folders.length then
      folder_walk_mut (current.folders.get ⟨folder_idx, h⟩) rest
    else
      none

/-- `SendApp::get_folder_by_path_mut` (main.rs:417-431), returning the
located folder together with the (untouched) collection. -/
def get_folder_by_path_mut (collection : Collection) (folder_path : List Nat) :
    Option Folder × Collection :=
  (folder_walk_mut collection.root_folder folder_path, collection)

/-- Modelled from the spec's words (§4.1, §8 *Addressing*): the folder
reached by "descending into `folders[i]` at each step", empty address
giving the folder itself, an out-of-range index giving "not found".
Used as the specification side of the refinement theorem for claim C1. -/
def descend_spec (f : Folder) : List Nat → Option Folder
  | [] => some f
  | i :: rest => (f.folders.get? i).bind (fun sub => descend_spec sub rest)

theorem folder_walk_eq_descend_spec (f : Folder) (p : List Nat) :
    folder_walk f p = descend_spec f p := by
  induction p generalizing f with
  | nil => rfl
  | cons i rest ih =>
    simp only [folder_walk, descend_spec]
    by_cases h : i < f.folders.length
    · rw [dif_pos h, List.get?_eq_get h, Option.some_bind, ih]
    · rw [dif_neg h, List.get?_eq_none.mpr (Nat.le_of_not_lt h), Option.none_bind]

theorem folder_walk_mut_eq_descend_spec (f : Folder) (p : List Nat) :
    folder_walk_mut f p = descend_spec f p := by
  induction p generalizing f with
  | nil => rfl
  | cons i rest ih =>
    simp only [folder_walk_mut, descend_spec]
    by_cases h : i < f.folders.length
    · rw [dif_pos h, List.get?_eq_get h, Option.some_bind, ih]
    · rw [dif_neg h, List.get?_eq_none.mpr (Nat.le_of_not_lt h), Option.none_bind]

/-! ## Percent-encoding (the `urlencoding::encode` calls of main.rs:1601-1602)

`urlencoding::encode` percent-encodes the UTF-8 bytes of its input,
leaving only the RFC 3986 unreserved bytes (ASCII alphanumerics and
`-`, `_`, `.`, `~`) as they are and writing every other byte as `%`
followed by two uppercase hex digits. -/

/-- The UTF-8 byte sequence of one scalar value. -/
def utf8_bytes (c : Char) : List Nat :=
  let n := c.toNat
  if n < 0x80 then [n]
  else if n < 0x800 then [0xC0 + n / 0x40, 0x80 + n % 0x40]
  else if n < 0x10000 then
    [0xE0 + n / 0x1000, 0x80 + (n / 0x40) % 0x40, 0x80 + n % 0x40]
  else
    [0xF0 + n / 0x40000, 0x80 + (n / 0x1000) % 0x40,
     0x80 + (n / 0x40) % 0x40, 0x80 + n % 0x40]

/-- RFC 3986 unreserved bytes, the ones `urlencoding::encode` keeps. -/
def is_unreserved_byte (b : Nat) : Bool :=
  (0x41 ≤ b && b ≤ 0x5A) || (0x61 ≤ b && b ≤ 0x7A) ||
  (0x30 ≤ b && b ≤ 0x39) || b == 0x2D || b == 0x5F || b == 0x2E || b == 0x7E

/-- Uppercase hexadecimal digit for `n < 16`. -/
def hex_digit (n : Nat) : Char :=
  if n < 10 then Char.ofNat (0x30 + n) else Char.ofNat (0x37 + n)

/-- Encoding of one byte: kept verbatim if unreserved, else `%XX`. -/
def encode_byte (b : Nat) : List Char :=
  if is_unreserved_byte b then [Char.ofNat b]
  else ['%', hex_digit (b / 16), hex_digit (b % 16)]

/-- `urlencoding::encode` on a character-list string. -/
def urlencode (s : List Char) : List Char :=
  ((s.map utf8_bytes).flatten.map encode_byte).flatten

/-! ## Query-parameter appending (main.rs:1590-1610) -/

/-- The query-string fragment loop of `send_request` (main.rs:1593-1605):
for each query parameter with non-blank (raw) key, resolve key and value
independently and push `encode(key)=encode(value)`. -/
def query_param_strings (env : Option Env)
    (query_params : List (List Char × List Char)) : List (List Char) :=
  query_params.foldl
    (fun params kv =>
      if is_blank kv.1 then params
      else
        params ++ [urlencode (resolve_value env kv.1) ++
                   '=' :: urlencode (resolve_value env kv.2)])
    []

/-- Modelled from the spec's words (§4.3 step 1, §8 *Query-param
encoding round trip*): the non-blank-key parameters, each rendered as
`encodedkey=encodedvalue`.  Specification side for claim C6. -/
def query_pairs_spec (env : Option Env)
    (query_params : List (List Char × List Char)) : List (List Char) :=
  (query_params.filter (fun kv => !(is_blank kv.1))).map
    (fun kv => urlencode (resolve_value env kv.1) ++
               '=' :: urlencode (resolve_value env kv.2))

/-- The URL construction of `send_request` (main.rs:1590-1610): the
resolved URL, with the joined non-blank query parameters appended after
`?` (or `&` if the resolved URL already contains a `?`). -/
def append_query_params (env : Option Env) (resolved_url : List Char)
    (query_params : List (List Char × List Char)) : List Char :=
  if query_params.isEmpty then resolved_url
  else if (query_param_strings env query_params).isEmpty then resolved_url
  else
    resolved_url ++
      (if resolved_url.contains '?' then '&' else '?') ::
        List.intercalate ['&'] (query_param_strings env query_params)

theorem query_param_strings_eq_spec (env : Option Env)
    (qps : List (List Char × List Char)) :
    query_param_strings env qps = query_pairs_spec env qps := by
  have key : ∀ (l : List (List Char × List Char)) (acc : List (List Char)),
      l.foldl
        (fun params kv =>
          if is_blank kv.1 then params
          else
            params ++ [urlencode (resolve_value env kv.1) ++
                       '=' :: urlencode (resolve_value env kv.2)])
        acc = acc ++ query_pairs_spec env l := by
    intro l
    induction l with
    | nil => intro acc; simp [query_pairs_spec]
    | cons kv rest ih =>
      intro acc
      simp only [List.foldl_cons]
      by_cases h : is_blank kv.1
      · rw [if_pos h, ih]
        simp [query_pairs_spec, List.filter_cons, h]
      · rw [if_neg h, ih]
        have hb : is_blank kv.1 = false := Bool.eq_false_iff.mpr h
        simp [query_pairs_spec, List.filter_cons, hb]
  exact key qps []

/-! ## Wire-request construction (`send_request`, main.rs:1583-1701)

The pure part of `send_request`: from the current request, the active
environment and the file system, the outgoing wire request (method,
final URL, attached headers, entity body) that the `reqwest` builder is
loaded with.  The file system is a function from path to optional byte
content, standing for `tokio::fs::read` at send time. -/

/-- The HTTP method enum (`reqwest::Method` values reachable from
main.rs:1620-1629). -/
inductive Method where
  | GET
  | POST
  | PUT
  | DELETE
  | PATCH
  | HEAD
  | OPTIONS
deriving DecidableEq

/-- The method match of `send_request` (main.rs:1620-1629): the seven
verbs, with anything else defaulting to GET. -/
def method_of_string (s : List Char) : Method :=
  if s = ("GET".data) then .GET
  else if s = ("POST".data) then .POST
  else if s = ("PUT".data) then .PUT
  else if s = ("DELETE".data) then .DELETE
  else if s = ("PATCH".data) then .PATCH
  else if s = ("HEAD".data) then .HEAD
  else if s = ("OPTIONS".data) then .OPTIONS
  else .GET

/-- One part of a multipart form (`reqwest::multipart::Part`,
main.rs:1643 and 1654-1656). -/
inductive Part where
  | text (key : List Char) (value : List Char)
  | file (key : List Char) (data : List Nat) (file_name : List Char)
deriving DecidableEq

/-- The entity body loaded onto the request builder: nothing
(main.rs:1697 not taken), `.body(text)` (main.rs:1698), `.multipart(form)`
(main.rs:1668), or `.form(&pairs)` (main.rs:1686). -/
inductive WireBody where
  | empty
  | raw (text : List Char)
  | multipart (parts : List Part)
  | form (pairs : List (List Char × List Char))
deriving DecidableEq

/-- The outgoing wire request assembled by `send_request`. -/
structure WireRequest where
  method : Method
  url : List Char
  headers : List (List Char × List Char)
  body : WireBody
deriving DecidableEq

/-- A file system snapshot at send time: path → optional byte content
(`tokio::fs::read`, main.rs:1652). -/
abbrev FileSystem : Type := List Char → Option (List Nat)

/-- The multipart form construction loop (main.rs:1637-1666): a text
entry with non-blank key contributes a text part; a file entry with
non-blank key and non-blank path contributes a file part with the bytes
read from the path and the stored display file name, or is skipped
entirely when the read fails; all other entries are skipped. -/
def build_form (fs : FileSystem) : List FormDataEntry → List Part
  | [] => []
  | .Text key value :: rest =>
    if is_blank key then build_form fs rest
    else .text key value :: build_form fs rest
  | .File key file_path file_name :: rest =>
    if is_blank key || is_blank file_path then build_form fs rest
    else
      match fs file_path with
      | some file_data => .file key file_data file_name :: build_form fs rest
      | none => build_form fs rest

/-- The header resolution loop (main.rs:1612-1615): names kept verbatim,
values variable-resolved. -/
def resolve_headers (env : Option Env)
    (headers : List (List Char × List Char)) :
    List (List Char × List Char) :=
  headers.map (fun kv => (kv.1, resolve_value env kv.2))

/-- The header attachment loop (main.rs:1672-1676 and 1690-1694, the
same loop in both arms): attach exactly the resolved headers whose name
and value are both non-blank. -/
def attach_headers (resolved_headers : List (List Char × List Char)) :
    List (List Char × List Char) :=
  resolved_headers.filter (fun kv => !(is_blank kv.1) && !(is_blank kv.2))

/-- The pure content of `send_request` (main.rs:1583-1701): resolve the
URL and append query parameters, resolve header values and the raw body,
then build the wire request by the body-type match of main.rs:1635-1701.
`BodyType::FormData` with a non-empty `form_data` list takes the
multipart arm (which attaches no headers); `BodyType::UrlEncoded` with a
non-empty `url_encoded_data` list takes the form arm (entries passed
verbatim); every other case takes the default arm, attaching the
resolved raw body as entity body when it is non-blank. -/
def build_wire_request (env : Option Env) (fs : FileSystem)
    (request : HttpRequest) : WireRequest :=
  if request.body_type = BodyType.FormData ∧ request.form_data ≠ [] then
    { method := method_of_string request.method,
      url := append_query_params env (resolve_value env request.url)
               request.query_params,
      headers := [],
      body := WireBody.multipart (build_form fs request.form_data) }
  else if request.body_type = BodyType.UrlEncoded ∧
          request.url_encoded_data ≠ [] then
    { method := method_of_string request.method,
      url := append_query_params env (resolve_value env request.url)
               request.query_params,
      headers := attach_headers (resolve_headers env request.headers),
      body := WireBody.form
                (request.url_encoded_data.filter (fun kv => !(is_blank kv.1))) }
  else
    { method := method_of_string request.method,
      url := append_query_params env (resolve_value env request.url)
               request.query_params,
      headers := attach_headers (resolve_headers env request.headers),
      body := if is_blank (resolve_value env request.body) then WireBody.empty
              else WireBody.raw (resolve_value env request.body) }

/-! ## Response shaping and completion absorption
(main.rs:1703-1740 and main.rs:204-227) -/

/-- The transport-failure value sent through the channel
(main.rs:1736): `format!("Request failed: \x7b\x7d", e)`. -/
def mk_transport_failure (cause : List Char) : List Char :=
  ("Request failed: ".data) ++ cause

/-- The `match result` of `SendApp::update` (main.rs:206-224): a
successful result is stored as is; an error string is absorbed as a
synthesized `HttpResponse` with status `0`, status text `"Error"`, empty
header map, the error text as body, zero time, the error length as body
size and zero header size. -/
def absorb_result : Except (List Char) HttpResponse → HttpResponse
  | .ok response => response
  | .error e =>
    { status := 0,
      status_text := ("Error".data),
      headers := [],
      body := e,
      time := 0,
      body_size := e.length,
      headers_size := 0 }

/-! ## Busy-flag gating (main.rs:911-917, 204-227, 1583-1588)

The event-loop behaviour relevant to claim C8 as a step function: the
state holds `is_loading` and whether a completion channel receiver is
installed (`response_receiver.is_some()`), plus the stored response.
A `clickSend` event is the Send button click: it dispatches only when
`!self.is_loading` (main.rs:911-917), and a dispatch (`send_request`,
main.rs:1583-1588) sets `is_loading`, clears the current response and
installs a fresh receiver.  A `deliver r` event is a frame of
`SendApp::update` whose `try_recv` yields `r` (main.rs:204-227): it is
absorbed only if a receiver is installed, storing the absorbed response,
clearing `is_loading` and dropping the receiver. -/

structure UiState where
  is_loading : Bool
  has_receiver : Bool
  current_response : Option HttpResponse
deriving DecidableEq

inductive UiEvent where
  | clickSend
  | deliver (result : Except (List Char) HttpResponse)

/-- One event step; the returned `Bool` records whether this step
dispatched a request. -/
def ui_step (s : UiState) : UiEvent → UiState × Bool
  | .clickSend =>
    if s.is_loading then (s, false)
    else ({ is_loading := true, has_receiver := true,
            current_response := none }, true)
  | .deliver result =>
    if s.has_receiver then
      ({ is_loading := false, has_receiver := false,
         current_response := some (absorb_result result) }, false)
    else (s, false)

/-- Run a sequence of events, counting dispatches. -/
def run_events (s : UiState) : List UiEvent → UiState × Nat
  | [] => (s, 0)
  | e :: es =>
    ((run_events (ui_step s e).1 es).1,
     (if (ui_step s e).2 then 1 else 0) + (run_events (ui_step s e).1 es).2)

/-! ## Helper lemmas on the wire-request builder -/

theorem build_wire_request_formdata (env : Option Env) (fs : FileSystem)
    (r : HttpRequest) (h1 : r.body_type = BodyType.FormData)
    (h2 : r.form_data ≠ []) :
    build_wire_request env fs r =
      { method := method_of_string r.method,
        url := append_query_params env (resolve_value env r.url) r.query_params,
        headers := [],
        body := WireBody.multipart (build_form fs r.form_data) } := by
  unfold build_wire_request
  rw [if_pos ⟨h1, h2⟩]

theorem build_wire_request_urlencoded (env : Option Env) (fs : FileSystem)
    (r : HttpRequest) (h1 : r.body_type = BodyType.UrlEncoded)
    (h2 : r.url_encoded_data ≠ []) :
    build_wire_request env fs r =
      { method := method_of_string r.method,
        url := append_query_params env (resolve_value env r.url) r.query_params,
        headers := attach_headers (resolve_headers env r.headers),
        body := WireBody.form
                  (r.url_encoded_data.filter (fun kv => !(is_blank kv.1))) } := by
  unfold build_wire_request
  rw [if_neg (fun hc => by rw [h1] at hc; exact absurd hc.1 (by decide)),
      if_pos ⟨h1, h2⟩]

theorem build_wire_request_default (env : Option Env) (fs : FileSystem)
    (r : HttpRequest)
    (h1 : ¬(r.body_type = BodyType.FormData ∧ r.form_data ≠ []))
    (h2 : ¬(r.body_type = BodyType.UrlEncoded ∧ r.url_encoded_data ≠ [])) :
    build_wire_request env fs r =
      { method := method_of_string r.method,
        url := append_query_params env (resolve_value env r.url) r.query_params,
        headers := attach_headers (resolve_headers env r.headers),
        body := if is_blank (resolve_value env r.body) then WireBody.empty
                else WireBody.raw (resolve_value env r.body) } := by
  unfold build_wire_request
  rw [if_neg h1, if_neg h2]

theorem build_wire_request_headers_attach (env : Option Env) (fs : FileSystem)
    (r : HttpRequest)
    (h : ¬(r.body_type = BodyType.FormData ∧ r.form_data ≠ [])) :
    (build_wire_request env fs r).headers =
      attach_headers (resolve_headers env r.headers) := by
  by_cases h2 : r.body_type = BodyType.UrlEncoded ∧ r.url_encoded_data ≠ []
  · rw [build_wire_request_urlencoded env fs r h2.1 h2.2]
  · rw [build_wire_request_default env fs r h h2]

/-! ## Shared concrete inputs for the witnesses and counterexamples -/

/-- A request with every field inert; the concrete inputs below override
single fields of it. -/
def base_request : HttpRequest :=
  { id := [], name := [], method := ("GET".data), url := ("http://h.test".data),
    headers := [], body := [], body_type := BodyType.None, form_data := [],
    url_encoded_data := [], query_params := [] }

/-- A file system on which every read fails. -/
def fs_missing : FileSystem := fun _ => none

def sample_leaf_folder : Folder := .mk [] ("child".data) [] []

def sample_root_folder : Folder := .mk [] ("Root".data) [] [sample_leaf_folder]

def sample_collection : Collection :=
  { id := [], name := [], root_folder := sample_root_folder }

def sample_response : HttpResponse :=
  { status := 200, status_text := ("OK".data), headers := [], body := [],
    time := 0, body_size := 0, headers_size := 0 }

/-- A form-data request with a non-empty entry list and a non-blank
header. -/
def c2_multipart_request : HttpRequest := { base_request with
  body_type := BodyType.FormData
  form_data := [.Text ("k".data) ("v".data)]
  headers := [(("H".data), ("x".data))] }

/-- A body-less request carrying one non-blank header. -/
def c2_plain_request : HttpRequest := { base_request with
  headers := [(("A".data), ("b".data))] }

/-- A form-data request whose entry list is empty but whose raw body
text is non-blank. -/
def c3_formdata_empty_request : HttpRequest := { base_request with
  body_type := BodyType.FormData
  body := ("x".data) }

/-- A form-data request with one text field and one file field whose
path does not exist on `fs_missing`. -/
def c9_request : HttpRequest := { base_request with
  body_type := BodyType.FormData
  form_data := [.Text ("a".data) ("b".data),
                .File ("f".data) ("/nope".data) ("x.bin".data)] }

/-- A url-encoded request whose entry list is empty and whose raw body
holds a placeholder. -/
def c10_empty_urlencoded_request : HttpRequest := { base_request with
  body_type := BodyType.UrlEncoded
  body := ("\x7b\x7ba\x7d\x7d".data) }

/-- A url-encoded request with a non-empty entry list and a placeholder
in the (inactive) raw body. -/
def c10_urlencoded_request : HttpRequest := { base_request with
  body_type := BodyType.UrlEncoded
  url_encoded_data := [(("k".data), ("v".data))]
  body := ("\x7b\x7ba\x7d\x7d".data) }

/-- The UI state right after a dispatch: busy, receiver installed. -/
def busy_state : UiState :=
  { is_loading := true, has_receiver := true, current_response := none }

/-! ## Claim theorems -/

/-- Claim C1: for every collection and every address, both the read-only
and the mutable folder lookup return exactly the folder reached by
descending into `folders[i]` at each step (`descend_spec`): the empty
address returns the collection's root folder, an in-bounds index
descends into that child, any out-of-range index at some depth yields
`none`, and the mutable variant leaves the collection unchanged. -/
theorem c1_folder_addressing :
    (∀ (c : Collection) (p : List Nat),
       get_folder_by_path c p = descend_spec c.root_folder p) ∧
    (∀ (c : Collection) (p : List Nat),
       (get_folder_by_path_mut c p).1 = descend_spec c.root_folder p) ∧
    (∀ (c : Collection) (p : List Nat), (get_folder_by_path_mut c p).2 = c) ∧
    (∀ c : Collection, get_folder_by_path c [] = some c.root_folder) ∧
    (∀ (f : Folder) (i : Nat) (rest : List Nat) (h : i < f.folders.length),
       descend_spec f (i :: rest) = descend_spec (f.folders.get ⟨i, h⟩) rest) ∧
    (∀ (f : Folder) (i : Nat) (rest : List Nat), f.folders.length ≤ i →
       descend_spec f (i :: rest) = none) := by
  refine ⟨fun c p => folder_walk_eq_descend_spec c.root_folder p,
          fun c p => folder_walk_mut_eq_descend_spec c.root_folder p,
          fun c p => rfl, fun c => rfl, ?_, ?_⟩
  · intro f i rest h
    simp only [descend_spec, List.get?_eq_get h, Option.some_bind]
  · intro f i rest h
    simp only [descend_spec, List.get?_eq_none.mpr h, Option.none_bind]

/-- Witness for C1 on a two-level tree: address `[0]` reaches the only
child of the root, and index `1` is out of range. -/
theorem c1_folder_addressing_witness :
    get_folder_by_path sample_collection [0] = some sample_leaf_folder ∧
    descend_spec sample_root_folder [1] = none := by
  constructor
  · rw [c1_folder_addressing.1 sample_collection [0]]
    rfl
  · exact c1_folder_addressing.2.2.2.2.2 sample_root_folder 1 [] (by decide)

/-- Claim C4: variable resolution substitutes the literal
`\x7b\x7bname\x7d\x7d` placeholders one whole-string pass per variable in
iteration order; the documented example resolves to
`https://api.test/users/42`, resolution with no active environment is
the identity, a string in which no defined variable's placeholder occurs
is returned unchanged, and `\x7b\x7bmissing\x7d\x7d` passes through
verbatim. -/
theorem c4_variable_resolution :
    resolve_value
        (some [(("base".data), ("https://api.test".data)),
               (("id".data), ("42".data))])
        ("\x7b\x7bbase\x7d\x7d/users/\x7b\x7bid\x7d\x7d".data) =
      ("https://api.test/users/42".data) ∧
    (∀ input, resolve_value none input = input) ∧
    (∀ (vars : Env) (input : List Char),
       (∀ kv ∈ vars, has_occurrence (placeholder kv.1) input = false) →
       resolve_value (some vars) input = input) ∧
    resolve_value
        (some [(("base".data), ("https://api.test".data)),
               (("id".data), ("42".data))])
        ("\x7b\x7bmissing\x7d\x7d".data) = ("\x7b\x7bmissing\x7d\x7d".data) := by
  refine ⟨by decide, fun _ => rfl,
          fun vars input h => resolve_value_no_occurrence vars input h, by decide⟩

/-- Witness for C4: a placeholder-free string is unchanged under a
non-empty environment. -/
theorem c4_variable_resolution_witness :
    resolve_value (some [(("a".data), ("1".data))]) ("no-vars-here".data) =
      ("no-vars-here".data) :=
  c4_variable_resolution.2.2.1 [(("a".data), ("1".data))]
    ("no-vars-here".data) (by decide)

/-- Claim C5 counterexample: with environment
`[A ↦ \x7b\x7bB\x7d\x7d, B ↦ x]` (A processed before B) and input
`\x7b\x7bA\x7d\x7d`, A's pass inserts `\x7b\x7bB\x7d\x7d` and B's later
pass DOES replace that introduced occurrence: the result is `x`, not the
`\x7b\x7bB\x7d\x7d` the claim requires. -/
theorem c5_rescan_counterexample :
    resolve_value
        (some [(("A".data), ("\x7b\x7bB\x7d\x7d".data)),
               (("B".data), ("x".data))])
        ("\x7b\x7bA\x7d\x7d".data) = ("x".data) ∧
    resolve_value
        (some [(("A".data), ("\x7b\x7bB\x7d\x7d".data)),
               (("B".data), ("x".data))])
        ("\x7b\x7bA\x7d\x7d".data) ≠ ("\x7b\x7bB\x7d\x7d".data) := by
  exact ⟨by decide, by decide⟩

/-- Claim C5 as amended: replacement text inserted by an
earlier-processed variable IS re-scanned by the passes of
later-processed variables (first conjunct); it is not re-visited by the
passes of variables processed at or before it — each variable gets
exactly one pass, applied before the remaining variables' passes (third
conjunct) — so with the order reversed the introduced placeholder
survives (second conjunct). -/
theorem c5_rescan_amended :
    resolve_value
        (some [(("A".data), ("\x7b\x7bB\x7d\x7d".data)),
               (("B".data), ("x".data))])
        ("\x7b\x7bA\x7d\x7d".data) = ("x".data) ∧
    resolve_value
        (some [(("B".data), ("x".data)),
               (("A".data), ("\x7b\x7bB\x7d\x7d".data))])
        ("\x7b\x7bA\x7d\x7d".data) = ("\x7b\x7bB\x7d\x7d".data) ∧
    (∀ (kv : List Char × List Char) (vars : Env) (input : List Char),
       resolve_value (some (kv :: vars)) input =
         resolve_value (some vars) (list_replace (placeholder kv.1) kv.2 input)) := by
  exact ⟨by decide, by decide, fun kv vars input => rfl⟩

/-- Claim C7: absorbing a transport failure synthesizes a response with
status 0, status text `Error`, an empty header map and the non-empty
failure description (`Request failed: <cause>`) as body; a successful
result is stored as is, so the error path is the only source of
status-0 responses among absorbed outcomes with non-zero wire status. -/
theorem c7_error_response :
    (∀ cause, absorb_result (Except.error (mk_transport_failure cause)) =
       { status := 0, status_text := ("Error".data), headers := [],
         body := mk_transport_failure cause, time := 0,
         body_size := (mk_transport_failure cause).length,
         headers_size := 0 }) ∧
    (∀ cause, mk_transport_failure cause ≠ []) ∧
    (∀ r, absorb_result (Except.ok r) = r) ∧
    (∀ r : HttpResponse, r.status ≠ 0 →
       (absorb_result (Except.ok r)).status ≠ 0) := by
  refine ⟨fun cause => rfl, fun cause => ?_, fun r => rfl, fun r h => h⟩
  simp [mk_transport_failure]

/-- Witness for C7: a 200 response absorbed through the success path
keeps its non-zero status. -/
theorem c7_error_response_witness :
    (absorb_result (Except.ok sample_response)).status ≠ 0 :=
  c7_error_response.2.2.2 sample_response (by decide)

/-- Claim C2 counterexample: a form-data request with a non-empty entry
list and a header whose name and value are both non-blank is dispatched
with NO headers attached — the multipart arm of `send_request`
(main.rs:1636-1669) never attaches the resolved headers. -/
theorem c2_headers_counterexample :
    c2_multipart_request.body_type = BodyType.FormData ∧
    c2_multipart_request.headers = [(("H".data), ("x".data))] ∧
    is_blank ("H".data) = false ∧ is_blank ("x".data) = false ∧
    (build_wire_request none fs_missing c2_multipart_request).headers = [] := by
  exact ⟨rfl, rfl, by decide, by decide, by decide⟩

/-- Claim C2 as amended: for every dispatched request EXCEPT a form-data
request with a non-empty entry list, the attached headers are exactly
the resolved headers whose name and value are both non-blank (blank ones
dropped); a form-data request with a non-empty entry list attaches no
user headers at all. -/
theorem c2_headers_amended :
    ∀ (env : Option Env) (fs : FileSystem) (r : HttpRequest),
      (r.body_type = BodyType.FormData → r.form_data ≠ [] →
         (build_wire_request env fs r).headers = []) ∧
      (¬(r.body_type = BodyType.FormData ∧ r.form_data ≠ []) →
         ∀ k v, ((k, v) ∈ (build_wire_request env fs r).headers ↔
           ((k, v) ∈ resolve_headers env r.headers ∧
            is_blank k = false ∧ is_blank v = false))) := by
  intro env fs r
  constructor
  · intro h1 h2
    rw [build_wire_request_formdata env fs r h1 h2]
  · intro h k v
    rw [build_wire_request_headers_attach env fs r h]
    unfold attach_headers
    rw [List.mem_filter]
    simp

/-- Witness for C2 (amended): the single non-blank header of a plain
request is attached. -/
theorem c2_headers_amended_witness :
    (("A".data), ("b".data)) ∈
      (build_wire_request none fs_missing c2_plain_request).headers :=
  ((c2_headers_amended none fs_missing c2_plain_request).2 (by decide)
      ("A".data) ("b".data)).mpr (by decide)

/-- Claim C3 counterexample: a request whose body kind is form-data but
whose form-data list is empty falls through to the default arm of
`send_request` (main.rs:1688-1700) and DOES send the raw body text as
its entity body. -/
theorem c3_body_kind_counterexample :
    c3_formdata_empty_request.body_type = BodyType.FormData ∧
    c3_formdata_empty_request.form_data = [] ∧
    (build_wire_request none fs_missing c3_formdata_empty_request).body =
      WireBody.raw ("x".data) := by
  exact ⟨rfl, rfl, by decide⟩

/-- Claim C3 as amended: the body representation selected by the
body-kind tag is used when its list is non-empty — form-data with a
non-empty list builds the multipart body from the entries only, and
url-encoded with a non-empty list builds the form body from the entries
only — but a form-data or url-encoded request whose active list is
empty falls back to the default arm and sends the resolved raw/JSON
body text (when non-blank) as its entity body. -/
theorem c3_body_kind_amended :
    ∀ (env : Option Env) (fs : FileSystem) (r : HttpRequest),
      (r.body_type = BodyType.FormData → r.form_data ≠ [] →
         (build_wire_request env fs r).body =
           WireBody.multipart (build_form fs r.form_data)) ∧
      (r.body_type = BodyType.UrlEncoded → r.url_encoded_data ≠ [] →
         (build_wire_request env fs r).body =
           WireBody.form
             (r.url_encoded_data.filter (fun kv => !(is_blank kv.1)))) ∧
      (¬(r.body_type = BodyType.FormData ∧ r.form_data ≠ []) →
       ¬(r.body_type = BodyType.UrlEncoded ∧ r.url_encoded_data ≠ []) →
         (build_wire_request env fs r).body =
           (if is_blank (resolve_value env r.body) then WireBody.empty
            else WireBody.raw (resolve_value env r.body))) := by
  intro env fs r
  refine ⟨fun h1 h2 => ?_, fun h1 h2 => ?_, fun h1 h2 => ?_⟩
  · rw [build_wire_request_formdata env fs r h1 h2]
  · rw [build_wire_request_urlencoded env fs r h1 h2]
  · rw [build_wire_request_default env fs r h1 h2]

/-- Witness for C3 (amended): a form-data request with a non-empty list
gets the multipart body built from its entries. -/
theorem c3_body_kind_amended_witness :
    (build_wire_request none fs_missing c9_request).body =
      WireBody.multipart (build_form fs_missing c9_request.form_data) :=
  (c3_body_kind_amended none fs_missing c9_request).1 rfl (by decide)

/-- Claim C9: a multipart file entry whose file cannot be read at send
time is skipped — removing it from the entry list leaves the built form
unchanged — and the documented concrete request (one text field, one
file field with a nonexistent path) dispatches with a multipart body
holding only the text field. -/
theorem c9_multipart_omission :
    (∀ (fs : FileSystem) (es1 es2 : List FormDataEntry)
       (key path file_name : List Char), fs path = none →
       build_form fs (es1 ++ FormDataEntry.File key path file_name :: es2) =
         build_form fs (es1 ++ es2)) ∧
    ((build_wire_request none fs_missing c9_request).body =
       WireBody.multipart [Part.text ("a".data) ("b".data)]) := by
  constructor
  · intro fs es1 es2 key path file_name hfs
    induction es1 with
    | nil =>
      simp only [List.nil_append, build_form, hfs]
      split <;> rfl
    | cons e rest ih =>
      cases e with
      | Text k v =>
        simp only [List.cons_append, build_form, List.append_eq, ih]
      | File k p n =>
        simp only [List.cons_append, build_form, List.append_eq, ih]
  · decide

/-- Witness for C9: on a file system where every read fails, the
nonexistent-file entry is dropped from the form. -/
theorem c9_multipart_omission_witness :
    build_form fs_missing
        ([] ++ FormDataEntry.File ("f".data) ("/nope".data) ("x.bin".data) :: []) =
      build_form fs_missing ([] ++ []) :=
  c9_multipart_omission.1 fs_missing [] [] ("f".data) ("/nope".data)
    ("x.bin".data) rfl

/-- Claim C10 counterexample: a url-encoded request whose entry list is
empty falls back to the resolved raw body, so its entity body differs
between two environments giving the placeholder different values. -/
theorem c10_env_independence_counterexample :
    c10_empty_urlencoded_request.body_type = BodyType.UrlEncoded ∧
    (build_wire_request (some [(("a".data), ("1".data))]) fs_missing
        c10_empty_urlencoded_request).body = WireBody.raw ("1".data) ∧
    (build_wire_request (some [(("a".data), ("2".data))]) fs_missing
        c10_empty_urlencoded_request).body = WireBody.raw ("2".data) ∧
    (build_wire_request (some [(("a".data), ("1".data))]) fs_missing
        c10_empty_urlencoded_request).body ≠
      (build_wire_request (some [(("a".data), ("2".data))]) fs_missing
        c10_empty_urlencoded_request).body := by
  exact ⟨rfl, by decide, by decide, by decide⟩

/-- Claim C10 as amended: for a form-data request with a non-empty entry
list and a url-encoded request with a non-empty entry list, the entity
body is built from the stored entries verbatim (no variable resolution
appears in it) and is therefore identical under any two environments;
when the active list is empty the request falls back to the resolved
raw body, which does depend on the environment (see the
counterexample). -/
theorem c10_env_independence_amended :
    ∀ (env1 env2 : Option Env) (fs : FileSystem) (r : HttpRequest),
      (r.body_type = BodyType.FormData → r.form_data ≠ [] →
         (build_wire_request env1 fs r).body =
           WireBody.multipart (build_form fs r.form_data) ∧
         (build_wire_request env1 fs r).body =
           (build_wire_request env2 fs r).body) ∧
      (r.body_type = BodyType.UrlEncoded → r.url_encoded_data ≠ [] →
         (build_wire_request env1 fs r).body =
           WireBody.form
             (r.url_encoded_data.filter (fun kv => !(is_blank kv.1))) ∧
         (build_wire_request env1 fs r).body =
           (build_wire_request env2 fs r).body) := by
  intro env1 env2 fs r
  constructor
  · intro h1 h2
    rw [build_wire_request_formdata env1 fs r h1 h2,
        build_wire_request_formdata env2 fs r h1 h2]
    exact ⟨rfl, rfl⟩
  · intro h1 h2
    rw [build_wire_request_urlencoded env1 fs r h1 h2,
        build_wire_request_urlencoded env2 fs r h1 h2]
    exact ⟨rfl, rfl⟩

/-- Witness for C10 (amended): a url-encoded request with a non-empty
entry list gets the same entity body under two environments that give
its raw-body placeholder different values. -/
theorem c10_env_independence_amended_witness :
    (build_wire_request (some [(("a".data), ("1".data))]) fs_missing
        c10_urlencoded_request).body =
      (build_wire_request (some [(("a".data), ("2".data))]) fs_missing
        c10_urlencoded_request).body :=
  ((c10_env_independence_amended (some [(("a".data), ("1".data))])
      (some [(("a".data), ("2".data))]) fs_missing
      c10_urlencoded_request).2 rfl (by decide)).2

/-- Claim C6: the dispatched URL is the resolved URL with every
non-blank-key query parameter appended as
`percentencodedkey=percentencodedvalue` (key and value resolved and
encoded independently, `query_pairs_spec`), pairs joined by `&`, the
whole prefixed by `?` when the resolved URL has no `?` yet and by `&`
when it does; the documented example yields
`https://x.test/search?q=a%20b&n=1` with exactly one `?`. -/
theorem c6_query_params :
    (∀ (env : Option Env) (url : List Char)
       (qps : List (List Char × List Char)),
       query_pairs_spec env qps = [] → append_query_params env url qps = url) ∧
    (∀ (env : Option Env) (url : List Char)
       (qps : List (List Char × List Char)),
       query_pairs_spec env qps ≠ [] → url.contains '?' = false →
       append_query_params env url qps =
         url ++ '?' :: List.intercalate ['&'] (query_pairs_spec env qps)) ∧
    (∀ (env : Option Env) (url : List Char)
       (qps : List (List Char × List Char)),
       query_pairs_spec env qps ≠ [] → url.contains '?' = true →
       append_query_params env url qps =
         url ++ '&' :: List.intercalate ['&'] (query_pairs_spec env qps)) ∧
    append_query_params none ("https://x.test/search".data)
        [(("q".data), ("a b".data)), (("n".data), ("1".data))] =
      ("https://x.test/search?q=a%20b&n=1".data) ∧
    List.countP (fun c => c == '?')
        (append_query_params none ("https://x.test/search".data)
          [(("q".data), ("a b".data)), (("n".data), ("1".data))]) = 1 := by
  have hne : ∀ (env : Option Env) (qps : List (List Char × List Char)),
      query_pairs_spec env qps ≠ [] →
      qps.isEmpty = false ∧ (query_param_strings env qps).isEmpty = false := by
    intro env qps h
    constructor
    · cases qps with
      | nil => exact absurd rfl h
      | cons kv rest => rfl
    · rw [query_param_strings_eq_spec]
      cases hq : query_pairs_spec env qps with
      | nil => exact absurd hq h
      | cons x xs => rfl
  refine ⟨?_, ?_, ?_, by decide, by decide⟩
  · intro env url qps h
    simp [append_query_params, query_param_strings_eq_spec, h]
  · intro env url qps h hc
    obtain ⟨h1, h2⟩ := hne env qps h
    have hm : '?' ∉ url := by simpa using hc
    simp [append_query_params, h1, h2, hm, query_param_strings_eq_spec, h]
  · intro env url qps h hc
    obtain ⟨h1, h2⟩ := hne env qps h
    have hm : '?' ∈ url := by simpa using hc
    simp [append_query_params, h1, h2, hm, query_param_strings_eq_spec, h]

/-- Witness for C6: one blank-keyed parameter contributes nothing, so
the URL is unchanged. -/
theorem c6_query_params_witness :
    append_query_params none ("http://h.test".data)
        [(("  ".data), ("v".data))] = ("http://h.test".data) :=
  c6_query_params.1 none ("http://h.test".data)
    [(("  ".data), ("v".data))] (by decide)

/-- Claim C8: the send action is gated by the busy flag — clicking Send
while `is_loading` is a complete no-op with no second dispatch; while
busy, any sequence of further clicks dispatches nothing and leaves the
flag set; a delivered completion (with the receiver installed) clears
the flag and stores exactly the absorbed response; clicking Send while
idle performs exactly one dispatch; and `is_loading = has_receiver` is
an invariant of every step, so a request is in flight iff the flag is
set. -/
theorem c8_busy_gating :
    (∀ s : UiState, s.is_loading = true →
       ui_step s UiEvent.clickSend = (s, false)) ∧
    (∀ s : UiState, s.is_loading = false →
       ui_step s UiEvent.clickSend =
         ({ is_loading := true, has_receiver := true,
            current_response := none }, true)) ∧
    (∀ (s : UiState) (evs : List UiEvent), s.is_loading = true →
       (∀ e ∈ evs, e = UiEvent.clickSend) → run_events s evs = (s, 0)) ∧
    (∀ (s : UiState) (result : Except (List Char) HttpResponse),
       s.has_receiver = true →
       ui_step s (UiEvent.deliver result) =
         ({ is_loading := false, has_receiver := false,
            current_response := some (absorb_result result) }, false)) ∧
    (∀ (s : UiState) (e : UiEvent), s.is_loading = s.has_receiver →
       (ui_step s e).1.is_loading = (ui_step s e).1.has_receiver) := by
  have click_busy : ∀ s : UiState, s.is_loading = true →
      ui_step s UiEvent.clickSend = (s, false) := by
    intro s h
    simp [ui_step, h]
  refine ⟨click_busy, ?_, ?_, ?_, ?_⟩
  · intro s h
    simp [ui_step, h]
  · intro s evs h hall
    induction evs with
    | nil => rfl
    | cons e es ih =>
      have he : e = UiEvent.clickSend := hall e (List.mem_cons_self e es)
      rw [he] at *
      have hstep := click_busy s h
      simp [run_events, hstep,
            ih (fun e' he' => hall e' (List.mem_cons_of_mem _ he'))]
  · intro s result h
    simp [ui_step, h]
  · intro s e h
    cases e with
    | clickSend =>
      by_cases hl : s.is_loading
      · simpa [ui_step, hl] using h
      · simp [ui_step, hl]
    | deliver result =>
      by_cases hr : s.has_receiver
      · simp [ui_step, hr]
      · simpa [ui_step, hr] using h

/-- Witness for C8: from the busy state, two further Send clicks
dispatch nothing and leave the state, busy flag included, unchanged. -/
theorem c8_busy_gating_witness :
    run_events busy_state [UiEvent.clickSend, UiEvent.clickSend] =
      (busy_state, 0) :=
  c8_busy_gating.2.2.1 busy_state [UiEvent.clickSend, UiEvent.clickSend] rfl
    (by
      intro e he
      rcases List.mem_cons.mp he with h | h
      · exact h
      · rcases List.mem_cons.mp h with h2 | h2
        · exact h2
        · exact absurd h2 (List.not_mem_nil e))

end Send
